import Mathlib

/-!
Verification development for `icons/generate_icons.py` of the chrome-copilot
repository.  The script draws a robot-face icon (`create_icon`) at three fixed
sizes and saves each one as a PNG (`main`).

The embedding models each PIL drawing call as a `DrawOp` carrying the bounding
box the source computes and the fill color the source passes; the pixel
semantics (`pixelAt`) paints the operations in program order over the
background, the coverage of each operation being the idealized rasterization
of the corresponding PIL primitive (an ellipse, an outline ring, a lower-half
arc ring, or the glyph rectangle for text).  Python's `//` on possibly
negative integers is floor division, embedded as `Int.fdiv`.  The system font
lookup (`ImageFont.truetype("Arial", size)`) and the text measurement
(`draw.textbbox`) are external inputs, embedded as an `Option FontMetrics`
parameter: `none` when the lookup raises (the `except: pass` path), otherwise
the measured width and height of the string "CC" at font size `size // 4`.
-/

namespace ChromeCopilot

/-- An RGB color triplet, as the Python tuples `(66, 133, 244)` etc. -/
structure RGB where
  r : Nat
  g : Nat
  b : Nat
deriving DecidableEq, Repr

/-- An RGBA pixel value of the canvas (`Image.new('RGBA', ...)`). -/
structure RGBA where
  r : Nat
  g : Nat
  b : Nat
  a : Nat
deriving DecidableEq, Repr

/-- PIL promotes an RGB triplet used on an RGBA image to a fully opaque
RGBA value. -/
def RGB.toRGBA (c : RGB) : RGBA :=
  ⟨c.r, c.g, c.b, 255⟩

/-- The distinct drawing calls issued by `create_icon`, in source order. -/
inductive Element
  | head        -- draw.ellipse(..., fill=robot_color, ...)  (the fill)
  | headOutline -- the width-1 outline of the same draw.ellipse call
  | leftEye     -- first eye draw.ellipse(..., fill=(66,133,244))
  | rightEye    -- second eye draw.ellipse(..., fill=(66,133,244))
  | mouth       -- draw.arc(..., 0, 180, fill=(66,133,244), width=2)
  | text        -- draw.text(..., "CC", fill=(66,133,244), font=font)
deriving DecidableEq, Repr

/-- One drawing operation: which source call it is, the bounding box
`[x0, y0, x1, y1]` the source computes for it (inclusive coordinates, PIL
convention), and the fill color the source passes. -/
structure DrawOp where
  element : Element
  x0 : Int
  y0 : Int
  x1 : Int
  y1 : Int
  color : RGB
deriving DecidableEq, Repr

/-- Membership of a pixel in the closed ellipse inscribed in the bounding box
`[x0, y0, x1, y1]`:  `((2x - (x0+x1))·h)² + ((2y - (y0+y1))·w)² ≤ (w·h)²`
with `w = x1 - x0`, `h = y1 - y0`. -/
def inEllipse (x0 y0 x1 y1 x y : Int) : Bool :=
  decide ((2 * x - (x0 + x1)) ^ 2 * (y1 - y0) ^ 2
      + (2 * y - (y0 + y1)) ^ 2 * (x1 - x0) ^ 2
    ≤ (x1 - x0) ^ 2 * (y1 - y0) ^ 2)

/-- The pixel lies inside the operation's bounding box. -/
def DrawOp.inBox (op : DrawOp) (x y : Int) : Bool :=
  decide (op.x0 ≤ x) && decide (x ≤ op.x1)
    && decide (op.y0 ≤ y) && decide (y ≤ op.y1)

/-- The pixel is painted by the operation: inside the bounding box, and inside
the shape the corresponding PIL primitive rasterizes there (full ellipse for
fills, a width-1 ring for the head outline, the lower half of a width-2 ring
for the 0°–180° mouth arc, the whole glyph rectangle for the text). -/
def DrawOp.covers (op : DrawOp) (x y : Int) : Bool :=
  op.inBox x y &&
    match op.element with
    | .head | .leftEye | .rightEye => inEllipse op.x0 op.y0 op.x1 op.y1 x y
    | .headOutline =>
        inEllipse op.x0 op.y0 op.x1 op.y1 x y
          && !inEllipse (op.x0 + 1) (op.y0 + 1) (op.x1 - 1) (op.y1 - 1) x y
    | .mouth =>
        decide (op.y0 + op.y1 ≤ 2 * y)
          && inEllipse op.x0 op.y0 op.x1 op.y1 x y
          && !inEllipse (op.x0 + 2) (op.y0 + 2) (op.x1 - 2) (op.y1 - 2) x y
    | .text => true

/-- The rendered image: canvas dimensions, the background color the canvas is
created with, and the drawing operations in program order. -/
structure Image where
  width : Nat
  height : Nat
  background : RGB
  ops : List DrawOp
deriving DecidableEq, Repr

/-- The color of a pixel: the operations are painted in program order over the
opaque background; the last operation covering the pixel wins. -/
def pixelAt (img : Image) (x y : Int) : RGBA :=
  img.ops.foldl (fun c op => if op.covers x y then op.color.toRGBA else c)
    img.background.toRGBA

/-- The width and height of "CC" that `create_icon` reads off
`draw.textbbox((0, 0), text, font=font)`:
`text_width = text_bbox[2] - text_bbox[0]`,
`text_height = text_bbox[3] - text_bbox[1]`.  These are metrics of the system
font "Arial" at point size `size // 4`, external to the program. -/
structure FontMetrics where
  textWidth : Nat
  textHeight : Nat
deriving DecidableEq, Repr

/-- `create_icon(size, background_color, robot_color)` of
`icons/generate_icons.py`, with the outcome of the font lookup passed
explicitly: `font = none` models `ImageFont.truetype` raising (the
`except: pass` path), `font = some m` a successful lookup measuring "CC"
at `m`. -/
def create_icon (size : Nat)
    (background_color : RGB := ⟨66, 133, 244⟩)
    (robot_color : RGB := ⟨255, 255, 255⟩)
    (font : Option FontMetrics := none) : Image :=
  let s : Int := size
  let margin := s.fdiv 8
  let head_size := s - 2 * margin
  let headFill : DrawOp :=
    ⟨.head, margin, margin, margin + head_size, margin + head_size, robot_color⟩
  let headOutline : DrawOp :=
    ⟨.headOutline, margin, margin, margin + head_size, margin + head_size,
      ⟨50, 50, 50⟩⟩
  let eye_size := s.fdiv 8
  let eye_y := s.fdiv 3
  let left_eye_x := s.fdiv 2 - s.fdiv 6
  let right_eye_x := s.fdiv 2 + s.fdiv 6
  let leftEye : DrawOp :=
    ⟨.leftEye, left_eye_x - eye_size.fdiv 2, eye_y - eye_size.fdiv 2,
      left_eye_x + eye_size.fdiv 2, eye_y + eye_size.fdiv 2, ⟨66, 133, 244⟩⟩
  let rightEye : DrawOp :=
    ⟨.rightEye, right_eye_x - eye_size.fdiv 2, eye_y - eye_size.fdiv 2,
      right_eye_x + eye_size.fdiv 2, eye_y + eye_size.fdiv 2, ⟨66, 133, 244⟩⟩
  let mouth_y := s.fdiv 2 + s.fdiv 6
  let mouth_width := s.fdiv 4
  let mouth : DrawOp :=
    ⟨.mouth, s.fdiv 2 - mouth_width.fdiv 2, mouth_y - mouth_width.fdiv 4,
      s.fdiv 2 + mouth_width.fdiv 2, mouth_y + mouth_width.fdiv 4,
      ⟨66, 133, 244⟩⟩
  let textOps : List DrawOp :=
    if 48 ≤ size then
      match font with
      | some m =>
          let text_width : Int := m.textWidth
          let text_height : Int := m.textHeight
          let text_x := (s - text_width).fdiv 2
          let text_y := s - text_height - margin.fdiv 2
          [⟨.text, text_x, text_y, text_x + text_width - 1,
            text_y + text_height - 1, ⟨66, 133, 244⟩⟩]
      | none => []
    else []
  ⟨size, size, background_color,
    [headFill, headOutline, leftEye, rightEye, mouth] ++ textOps⟩

/-- The elements the spec calls accent elements: eyes, mouth, text overlay
(the head fill and its outline are not accent elements). -/
def isAccent : Element → Bool
  | .leftEye | .rightEye | .mouth | .text => true
  | .head | .headOutline => false

/-- The colors, in drawing order, of the accent elements of an image. -/
def accentColors (img : Image) : List RGB :=
  (img.ops.filter fun op => isAccent op.element).map DrawOp.color

/-- `sizes = [16, 48, 128]` of `main`. -/
def sizes : List Nat := [16, 48, 128]

/-- `filenames` of `main`. -/
def filenames : List String := ["icon16.png", "icon48.png", "icon128.png"]

/-- The `(size, filename)` pairs `main` iterates over (`zip(sizes, filenames)`)
together with the icon rendered for each: `main` calls `create_icon(size)`
with both color defaults. -/
def mainWrites (font : Option FontMetrics) : List (String × Image) :=
  (sizes.zip filenames).map fun p =>
    (p.2, create_icon p.1 ⟨66, 133, 244⟩ ⟨255, 255, 255⟩ font)

/-- The working directory as a map from file name to saved image. -/
def FS : Type := String → Option Image

/-- `icon.save(filename, 'PNG')`: (over)writes the file of that name. -/
def setFile (fs : FS) (name : String) (img : Image) : FS :=
  fun n => if n = name then some img else fs n

/-- The filesystem after a list of saves, in order. -/
def saveAll (fs : FS) (writes : List (String × Image)) : FS :=
  writes.foldl (fun f w => setFile f w.1 w.2) fs

/-- The driver loop over its writes with a fallible `save`: `ok name` tells
whether saving under `name` succeeds.  A failing save raises; the loop has no
handler, so the run stops there with the error, leaving the filesystem as the
earlier iterations left it. -/
def saveSeq (ok : String → Bool) :
    List (String × Image) → FS → Except (String × FS) FS
  | [], fs => .ok fs
  | w :: ws, fs =>
      if ok w.1 then saveSeq ok ws (setFile fs w.1 w.2)
      else .error (w.1, fs)

/-- `main` of `icons/generate_icons.py` as a filesystem transformer, given the
font-lookup outcome and the save oracle. -/
def runMain (font : Option FontMetrics) (ok : String → Bool) (fs : FS) :
    Except (String × FS) FS :=
  saveSeq ok (mainWrites font) fs

/-- The operation list rendered at size 16: no text overlay for any
font-lookup outcome, since `16 >= 48` is false. -/
lemma ops_16 (bg fg : RGB) (font : Option FontMetrics) :
    (create_icon 16 bg fg font).ops =
      [⟨.head, 2, 2, 14, 14, fg⟩,
       ⟨.headOutline, 2, 2, 14, 14, ⟨50, 50, 50⟩⟩,
       ⟨.leftEye, 5, 4, 7, 6, ⟨66, 133, 244⟩⟩,
       ⟨.rightEye, 9, 4, 11, 6, ⟨66, 133, 244⟩⟩,
       ⟨.mouth, 6, 9, 10, 11, ⟨66, 133, 244⟩⟩] := rfl

/-- The operation list rendered at size 48 with the font available. -/
lemma ops_48_some (bg fg : RGB) (m : FontMetrics) :
    (create_icon 48 bg fg (some m)).ops =
      [⟨.head, 6, 6, 42, 42, fg⟩,
       ⟨.headOutline, 6, 6, 42, 42, ⟨50, 50, 50⟩⟩,
       ⟨.leftEye, 13, 13, 19, 19, ⟨66, 133, 244⟩⟩,
       ⟨.rightEye, 29, 13, 35, 19, ⟨66, 133, 244⟩⟩,
       ⟨.mouth, 18, 29, 30, 35, ⟨66, 133, 244⟩⟩,
       ⟨.text, ((48 : Int) - (m.textWidth : Int)).fdiv 2,
         48 - (m.textHeight : Int) - 3,
         ((48 : Int) - (m.textWidth : Int)).fdiv 2 + (m.textWidth : Int) - 1,
         48 - (m.textHeight : Int) - 3 + (m.textHeight : Int) - 1,
         ⟨66, 133, 244⟩⟩] := rfl

/-- The operation list rendered at size 48 after a failed font lookup. -/
lemma ops_48_none (bg fg : RGB) :
    (create_icon 48 bg fg none).ops =
      [⟨.head, 6, 6, 42, 42, fg⟩,
       ⟨.headOutline, 6, 6, 42, 42, ⟨50, 50, 50⟩⟩,
       ⟨.leftEye, 13, 13, 19, 19, ⟨66, 133, 244⟩⟩,
       ⟨.rightEye, 29, 13, 35, 19, ⟨66, 133, 244⟩⟩,
       ⟨.mouth, 18, 29, 30, 35, ⟨66, 133, 244⟩⟩] := rfl

/-- The operation list rendered at size 128 with the font available. -/
lemma ops_128_some (bg fg : RGB) (m : FontMetrics) :
    (create_icon 128 bg fg (some m)).ops =
      [⟨.head, 16, 16, 112, 112, fg⟩,
       ⟨.headOutline, 16, 16, 112, 112, ⟨50, 50, 50⟩⟩,
       ⟨.leftEye, 35, 34, 51, 50, ⟨66, 133, 244⟩⟩,
       ⟨.rightEye, 77, 34, 93, 50, ⟨66, 133, 244⟩⟩,
       ⟨.mouth, 48, 77, 80, 93, ⟨66, 133, 244⟩⟩,
       ⟨.text, ((128 : Int) - (m.textWidth : Int)).fdiv 2,
         128 - (m.textHeight : Int) - 8,
         ((128 : Int) - (m.textWidth : Int)).fdiv 2 + (m.textWidth : Int) - 1,
         128 - (m.textHeight : Int) - 8 + (m.textHeight : Int) - 1,
         ⟨66, 133, 244⟩⟩] := rfl

/-- The operation list rendered at size 128 after a failed font lookup. -/
lemma ops_128_none (bg fg : RGB) :
    (create_icon 128 bg fg none).ops =
      [⟨.head, 16, 16, 112, 112, fg⟩,
       ⟨.headOutline, 16, 16, 112, 112, ⟨50, 50, 50⟩⟩,
       ⟨.leftEye, 35, 34, 51, 50, ⟨66, 133, 244⟩⟩,
       ⟨.rightEye, 77, 34, 93, 50, ⟨66, 133, 244⟩⟩,
       ⟨.mouth, 48, 77, 80, 93, ⟨66, 133, 244⟩⟩] := rfl

/-- A painted pixel lies inside the operation's bounding box. -/
lemma covers_imp_box {op : DrawOp} {x y : Int} (h : op.covers x y = true) :
    op.x0 ≤ x ∧ x ≤ op.x1 ∧ op.y0 ≤ y ∧ y ≤ op.y1 := by
  have hb : op.inBox x y = true := by
    unfold DrawOp.covers at h
    exact (Bool.and_eq_true .. ▸ h).1
  simpa [DrawOp.inBox, and_assoc] using hb

/-- Operations covering a pixel nowhere leave the accumulator unchanged. -/
lemma foldl_no_cover (x y : Int) :
    ∀ (ops : List DrawOp) (c : RGBA), (∀ op ∈ ops, op.covers x y = false) →
      ops.foldl (fun c op => if op.covers x y then op.color.toRGBA else c) c
        = c
  | [], _, _ => rfl
  | op :: ops, c, h => by
      have h0 : op.covers x y = false := h op (List.mem_cons_self op ops)
      simp only [List.foldl_cons, h0, Bool.false_eq_true, if_false]
      exact foldl_no_cover x y ops c fun o ho => h o (List.mem_cons_of_mem _ ho)

/-- A pixel covered by no operation keeps the background color. -/
lemma pixelAt_eq_background {img : Image} {x y : Int} {c : RGB}
    (hbg : img.background = c)
    (h : ∀ op ∈ img.ops, op.covers x y = false) :
    pixelAt img x y = c.toRGBA :=
  hbg ▸ foldl_no_cover x y img.ops img.background.toRGBA h

/-- Python floor division by two agrees with Euclidean division by two. -/
lemma fdiv_two_eq (a : Int) : a.fdiv 2 = a / 2 :=
  Int.fdiv_eq_ediv a (by norm_num)

/-- Painting preserves full opacity: the fold keeps alpha 255 whenever the
initial value has alpha 255, since every painted color is an `RGB.toRGBA`. -/
lemma foldl_alpha (x y : Int) :
    ∀ (ops : List DrawOp) (c : RGBA), c.a = 255 →
      (ops.foldl (fun c op => if op.covers x y then op.color.toRGBA else c)
        c).a = 255
  | [], c, hc => hc
  | op :: ops, c, hc => by
      simp only [List.foldl_cons]
      by_cases h : op.covers x y = true
      · simp only [h, if_true]
        exact foldl_alpha x y ops _ rfl
      · simp only [h, if_false]
        exact foldl_alpha x y ops c hc

/-- C2 -- For every supported size `s ∈ {16, 48, 128}` and any color
arguments and font-lookup outcome, `create_icon` returns an image whose width
and height both equal `s`. -/
theorem create_icon_dimensions
    (bg fg : RGB) (font : Option FontMetrics) :
    ((create_icon 16 bg fg font).width = 16
        ∧ (create_icon 16 bg fg font).height = 16)
      ∧ ((create_icon 48 bg fg font).width = 48
        ∧ (create_icon 48 bg fg font).height = 48)
      ∧ ((create_icon 128 bg fg font).width = 128
        ∧ (create_icon 128 bg fg font).height = 128) :=
  ⟨⟨rfl, rfl⟩, ⟨rfl, rfl⟩, ⟨rfl, rfl⟩⟩

/-- C1 (counterexample) -- At `create_icon(48)` with the default arguments
`background_color = (66,133,244)` and `robot_color = (255,255,255)` and an
available font, it is false that every accent element (eyes, mouth, text) is
drawn in the foreground-color argument: they are drawn in the hardcoded
`(66, 133, 244)` instead. -/
theorem accent_not_foreground_color :
    ¬ ∀ c ∈ accentColors
        (create_icon 48 ⟨66, 133, 244⟩ ⟨255, 255, 255⟩ (some ⟨16, 12⟩)),
      c = ⟨255, 255, 255⟩ := by
  decide

/-- C1 (amended) -- For every size, both colors and any font-lookup outcome,
the accent elements (eyes, mouth arc, text overlay) are all drawn in the
fixed color `(66, 133, 244)`, independent of the `robot_color` argument; the
`robot_color` argument is used (only) for the head fill, the first drawing
operation. -/
theorem accent_color_is_fixed_blue (size : Nat) (bg fg : RGB)
    (font : Option FontMetrics) :
    (∀ c ∈ accentColors (create_icon size bg fg font), c = ⟨66, 133, 244⟩)
    ∧ ((create_icon size bg fg font).ops.map DrawOp.color).head? = some fg := by
  refine ⟨?_, rfl⟩
  intro c hc
  rcases font with _ | m <;> by_cases h : 48 ≤ size <;>
    simp [accentColors, create_icon, isAccent, h, List.filter] at hc <;>
    tauto

/-- Witness for the amended C1 at `create_icon(48)` with the defaults. -/
theorem accent_color_is_fixed_blue_witness :
    ((⟨66, 133, 244⟩ : RGB) ∈ accentColors
        (create_icon 48 ⟨66, 133, 244⟩ ⟨255, 255, 255⟩ (some ⟨16, 12⟩))
      ∧ (⟨66, 133, 244⟩ : RGB) = ⟨66, 133, 244⟩)
    ∧ ((create_icon 48 ⟨66, 133, 244⟩ ⟨255, 255, 255⟩
        (some ⟨16, 12⟩)).ops.map DrawOp.color).head? = some ⟨255, 255, 255⟩ :=
  ⟨⟨by decide,
    (accent_color_is_fixed_blue 48 ⟨66, 133, 244⟩ ⟨255, 255, 255⟩
      (some ⟨16, 12⟩)).1 _ (by decide)⟩,
   (accent_color_is_fixed_blue 48 ⟨66, 133, 244⟩ ⟨255, 255, 255⟩
      (some ⟨16, 12⟩)).2⟩

/-- C3 -- `create_icon` is a total function of its inputs (in particular of
the font-lookup outcome, its only internal failure source): when the font
lookup fails (`font = none`), rendering still returns a `size × size` image
over the requested background, the result contains no text operation, and its
operations are exactly those of a successful-lookup render with the text
overlay removed. -/
theorem font_failure_swallowed (size : Nat) (bg fg : RGB) (m : FontMetrics) :
    (create_icon size bg fg none).width = size
    ∧ (create_icon size bg fg none).height = size
    ∧ (create_icon size bg fg none).background = bg
    ∧ (∀ op ∈ (create_icon size bg fg none).ops, op.element ≠ .text)
    ∧ (create_icon size bg fg none).ops
        = ((create_icon size bg fg (some m)).ops.filter
            fun op => decide (op.element ≠ .text)) := by
  refine ⟨rfl, rfl, rfl, ?_, ?_⟩
  · intro op hop
    simp [create_icon] at hop
    rcases hop with rfl | rfl | rfl | rfl | rfl <;> simp
  · by_cases h : 48 ≤ size <;>
      simp [create_icon, h, List.filter]

/-- Witness for C3, instantiating the no-text conjunct at the head operation
of `create_icon(16)` rendered without a font. -/
theorem font_failure_swallowed_witness :
    ((⟨.head, 2, 2, 14, 14, ⟨255, 255, 255⟩⟩ : DrawOp)
        ∈ (create_icon 16 ⟨66, 133, 244⟩ ⟨255, 255, 255⟩ none).ops)
    ∧ (⟨.head, 2, 2, 14, 14, ⟨255, 255, 255⟩⟩ : DrawOp).element ≠ .text :=
  ⟨by decide,
   (font_failure_swallowed 16 ⟨66, 133, 244⟩ ⟨255, 255, 255⟩
      ⟨16, 12⟩).2.2.2.1 _ (by decide)⟩

/-- C8 -- Below the threshold no text overlay is attempted regardless of the
font-lookup outcome: for every `size < 48` the rendered operations contain no
text element; and the boundary is exactly 48: at `size = 48` with a font
available, a text operation is present. -/
theorem text_threshold_at_48 (s : Nat) (bg fg : RGB)
    (font : Option FontMetrics) (m : FontMetrics) (hs : s < 48) :
    (∀ op ∈ (create_icon s bg fg font).ops, op.element ≠ .text)
    ∧ ((create_icon 48 bg fg (some m)).ops.any
        fun op => op.element == .text) = true := by
  refine ⟨?_, rfl⟩
  intro op hop
  have h : ¬ 48 ≤ s := by omega
  rcases font with _ | m' <;> simp [create_icon, h] at hop <;>
    rcases hop with rfl | rfl | rfl | rfl | rfl <;> simp

/-- Witness for C8 at `size = 16`, instantiated at its head operation. -/
theorem text_threshold_at_48_witness :
    (16 < 48
      ∧ (⟨.head, 2, 2, 14, 14, ⟨255, 255, 255⟩⟩ : DrawOp)
          ∈ (create_icon 16 ⟨66, 133, 244⟩ ⟨255, 255, 255⟩ none).ops)
    ∧ (⟨.head, 2, 2, 14, 14, ⟨255, 255, 255⟩⟩ : DrawOp).element ≠ .text :=
  ⟨⟨by decide, by decide⟩,
   (text_threshold_at_48 16 ⟨66, 133, 244⟩ ⟨255, 255, 255⟩ none ⟨16, 12⟩
      (by decide)).1 _ (by decide)⟩

/-- C9 -- Rendering is deterministic: `create_icon` is a pure function of
`(size, background_color, robot_color, font)`, so two renders at size 128
with identical arguments and the same font-lookup outcome are equal as
images, and in particular pixel-identical. -/
theorem render_deterministic (bg fg : RGB) (font : Option FontMetrics) :
    create_icon 128 bg fg font = create_icon 128 bg fg font
    ∧ ∀ x y : Int,
        pixelAt (create_icon 128 bg fg font) x y
          = pixelAt (create_icon 128 bg fg font) x y :=
  ⟨rfl, fun _ _ => rfl⟩

/-- C10 -- Every pixel of the rendered image is fully opaque: the canvas
starts from the background triplet promoted to alpha 255, and every drawing
operation paints an RGB triplet promoted to alpha 255. -/
theorem pixels_opaque (size : Nat) (bg fg : RGB) (font : Option FontMetrics)
    (_hs : 0 < size) (x y : Int) :
    (pixelAt (create_icon size bg fg font) x y).a = 255 :=
  foldl_alpha x y _ _ rfl

/-- Witness for C10 at size 16, pixel (0, 0). -/
theorem pixels_opaque_witness :
    0 < 16
    ∧ (pixelAt (create_icon 16 ⟨66, 133, 244⟩ ⟨255, 255, 255⟩ none) 0 0).a
        = 255 :=
  ⟨by decide,
   pixels_opaque 16 ⟨66, 133, 244⟩ ⟨255, 255, 255⟩ none (by decide) 0 0⟩

/-- C4 -- With every save succeeding, the driver performs exactly the three
writes `icon16.png`, `icon48.png`, `icon128.png` in that order; afterwards
the working directory maps `icon{s}.png` to the icon rendered at size `s`
with the default colors (overwriting whatever was there before, for any
initial filesystem), and every other name is untouched. -/
theorem main_writes_three_icons (font : Option FontMetrics) (fs : FS) :
    (mainWrites font).map Prod.fst
        = ["icon16.png", "icon48.png", "icon128.png"]
    ∧ runMain font (fun _ => true) fs = .ok (saveAll fs (mainWrites font))
    ∧ saveAll fs (mainWrites font) "icon16.png"
        = some (create_icon 16 ⟨66, 133, 244⟩ ⟨255, 255, 255⟩ font)
    ∧ saveAll fs (mainWrites font) "icon48.png"
        = some (create_icon 48 ⟨66, 133, 244⟩ ⟨255, 255, 255⟩ font)
    ∧ saveAll fs (mainWrites font) "icon128.png"
        = some (create_icon 128 ⟨66, 133, 244⟩ ⟨255, 255, 255⟩ font)
    ∧ ∀ n, n ∉ filenames → saveAll fs (mainWrites font) n = fs n := by
  refine ⟨rfl, rfl, ?_, ?_, ?_, ?_⟩
  · simp [saveAll, mainWrites, sizes, filenames, setFile]
  · simp [saveAll, mainWrites, sizes, filenames, setFile]
  · simp [saveAll, mainWrites, sizes, filenames, setFile]
  · intro n hn
    simp only [filenames, List.mem_cons, List.not_mem_nil, or_false,
      not_or] at hn
    obtain ⟨h1, h2, h3⟩ := hn
    simp [saveAll, mainWrites, sizes, filenames, setFile, h1, h2, h3]

/-- Witness for C4: a name outside the three icon names is untouched. -/
theorem main_writes_three_icons_witness :
    "other.txt" ∉ filenames
    ∧ saveAll (fun _ => none) (mainWrites none) "other.txt"
        = (fun _ => none : FS) "other.txt" :=
  ⟨by decide,
   (main_writes_three_icons none (fun _ => none)).2.2.2.2.2 "other.txt"
     (by decide)⟩

/-- C5 -- A failing save propagates out of the driver loop unhandled, and
every icon saved before the failure stays in place: if the first, second or
third save is the first to fail, the run ends with that error and the
filesystem holds exactly the writes made before it. -/
theorem save_failure_propagates (font : Option FontMetrics) (fs : FS)
    (ok : String → Bool) :
    (ok "icon16.png" = false →
      runMain font ok fs = .error ("icon16.png", fs))
    ∧ (ok "icon16.png" = true → ok "icon48.png" = false →
      runMain font ok fs
          = .error ("icon48.png", saveAll fs ((mainWrites font).take 1))
        ∧ saveAll fs ((mainWrites font).take 1) "icon16.png"
            = some (create_icon 16 ⟨66, 133, 244⟩ ⟨255, 255, 255⟩ font))
    ∧ (ok "icon16.png" = true → ok "icon48.png" = true →
        ok "icon128.png" = false →
      runMain font ok fs
          = .error ("icon128.png", saveAll fs ((mainWrites font).take 2))
        ∧ saveAll fs ((mainWrites font).take 2) "icon16.png"
            = some (create_icon 16 ⟨66, 133, 244⟩ ⟨255, 255, 255⟩ font)
        ∧ saveAll fs ((mainWrites font).take 2) "icon48.png"
            = some (create_icon 48 ⟨66, 133, 244⟩ ⟨255, 255, 255⟩ font)) := by
  refine ⟨fun h1 => ?_, fun h1 h2 => ⟨?_, ?_⟩, fun h1 h2 h3 => ⟨?_, ?_, ?_⟩⟩ <;>
    simp [runMain, saveSeq, saveAll, mainWrites, sizes, filenames, setFile,
      *]

/-- Witness for C5 with a save oracle that succeeds on `icon16.png` and
fails on `icon48.png`. -/
theorem save_failure_propagates_witness :
    ((fun n => decide (n = "icon16.png")) "icon16.png" = true
      ∧ (fun n => decide (n = "icon16.png")) "icon48.png" = false)
    ∧ (runMain none (fun n => decide (n = "icon16.png")) (fun _ => none)
          = .error ("icon48.png",
              saveAll (fun _ => none) ((mainWrites none).take 1))
        ∧ saveAll (fun _ => none) ((mainWrites none).take 1) "icon16.png"
            = some (create_icon 16 ⟨66, 133, 244⟩ ⟨255, 255, 255⟩ none)) :=
  ⟨⟨by decide, by decide⟩,
   (save_failure_propagates none (fun _ => none)
      (fun n => decide (n = "icon16.png"))).2.1 (by decide) (by decide)⟩

/-- C6 -- For every supported size `s ∈ {16, 48, 128}`, any colors and any
font-lookup outcome whose measured "CC" fits the layout (width at most `s`
and height at most `s` minus half the margin), every pixel painted by any
drawn element (head fill and outline, both eyes, mouth arc, and the text
overlay when drawn) lies within the `s × s` canvas. -/
theorem drawn_elements_in_bounds (s : Nat) (hs : s ∈ sizes) (bg fg : RGB)
    (font : Option FontMetrics)
    (hfont : ∀ m, font = some m →
      m.textWidth ≤ s ∧ m.textHeight + s / 8 / 2 ≤ s) :
    ∀ op ∈ (create_icon s bg fg font).ops, ∀ x y : Int,
      op.covers x y = true →
        0 ≤ x ∧ x < (s : Int) ∧ 0 ≤ y ∧ y < (s : Int) := by
  simp only [sizes, List.mem_cons, List.not_mem_nil, or_false] at hs
  intro op hop x y hcov
  have hbox := covers_imp_box hcov
  rcases font with _ | m
  · rcases hs with rfl | rfl | rfl
    all_goals
      first
      | rw [ops_16] at hop
      | rw [ops_48_none] at hop
      | rw [ops_128_none] at hop
    all_goals simp only [List.mem_cons, List.not_mem_nil, or_false] at hop
    all_goals rcases hop with rfl | rfl | rfl | rfl | rfl
    all_goals dsimp only at hbox
    all_goals omega
  · obtain ⟨htw, hth⟩ := hfont m rfl
    rcases hs with rfl | rfl | rfl
    all_goals
      first
      | rw [ops_16] at hop
      | rw [ops_48_some] at hop
      | rw [ops_128_some] at hop
    all_goals simp only [List.mem_cons, List.not_mem_nil, or_false] at hop
    all_goals rcases hop with rfl | rfl | rfl | rfl | rfl | rfl
    all_goals dsimp only at hbox
    all_goals try simp only [fdiv_two_eq] at hbox
    all_goals omega

/-- Witness for C6 at size 48 with the font measuring "CC" at 16 × 12,
instantiated at the head operation and the pixel (24, 24). -/
theorem drawn_elements_in_bounds_witness :
    (48 ∈ sizes
      ∧ (∀ m : FontMetrics,
          (some ⟨16, 12⟩ : Option FontMetrics) = some m →
            m.textWidth ≤ 48 ∧ m.textHeight + 48 / 8 / 2 ≤ 48)
      ∧ (⟨.head, 6, 6, 42, 42, ⟨255, 255, 255⟩⟩ : DrawOp)
          ∈ (create_icon 48 ⟨66, 133, 244⟩ ⟨255, 255, 255⟩
              (some ⟨16, 12⟩)).ops
      ∧ (⟨.head, 6, 6, 42, 42, ⟨255, 255, 255⟩⟩ : DrawOp).covers 24 24
          = true)
    ∧ (0 ≤ (24 : Int) ∧ (24 : Int) < ((48 : Nat) : Int)
        ∧ 0 ≤ (24 : Int) ∧ (24 : Int) < ((48 : Nat) : Int)) :=
  ⟨⟨by decide, by rintro m hm; obtain rfl := Option.some.inj hm; exact ⟨by decide, by decide⟩, by decide,
      by decide⟩,
   drawn_elements_in_bounds 48 (by decide) ⟨66, 133, 244⟩ ⟨255, 255, 255⟩
     (some ⟨16, 12⟩)
     (by rintro m hm; obtain rfl := Option.some.inj hm
         exact ⟨by decide, by decide⟩)
     ⟨.head, 6, 6, 42, 42, ⟨255, 255, 255⟩⟩ (by decide) 24 24 (by decide)⟩

/-- C7 -- For every supported size `s ∈ {16, 48, 128}` and every background
color, the four corner pixels of the rendered canvas equal the background
color: the head circle is inset by `s/8` and no other element reaches the
corners (the text overlay, when drawn with a font whose measured height fits
above the bottom margin, stays strictly inside). -/
theorem corner_pixels_background (s : Nat) (hs : s ∈ sizes) (bg fg : RGB)
    (font : Option FontMetrics)
    (hfont : ∀ m, font = some m → m.textHeight + s / 8 / 2 < s) :
    pixelAt (create_icon s bg fg font) 0 0 = bg.toRGBA
    ∧ pixelAt (create_icon s bg fg font) ((s : Int) - 1) 0 = bg.toRGBA
    ∧ pixelAt (create_icon s bg fg font) 0 ((s : Int) - 1) = bg.toRGBA
    ∧ pixelAt (create_icon s bg fg font) ((s : Int) - 1) ((s : Int) - 1)
        = bg.toRGBA := by
  simp only [sizes, List.mem_cons, List.not_mem_nil, or_false] at hs
  rcases font with _ | m
  · rcases hs with rfl | rfl | rfl
    all_goals refine ⟨?_, ?_, ?_, ?_⟩
    all_goals refine pixelAt_eq_background rfl ?_
    all_goals
      first
      | rw [ops_16]
      | rw [ops_48_none]
      | rw [ops_128_none]
    all_goals intro op hop
    all_goals simp only [List.mem_cons, List.not_mem_nil, or_false] at hop
    all_goals rcases hop with rfl | rfl | rfl | rfl | rfl
    all_goals rfl
  · have hth := hfont m rfl
    rcases hs with rfl | rfl | rfl
    all_goals refine ⟨?_, ?_, ?_, ?_⟩
    all_goals refine pixelAt_eq_background rfl ?_
    all_goals
      first
      | rw [ops_16]
      | rw [ops_48_some]
      | rw [ops_128_some]
    all_goals intro op hop
    all_goals simp only [List.mem_cons, List.not_mem_nil, or_false] at hop
    all_goals rcases hop with rfl | rfl | rfl | rfl | rfl | rfl
    all_goals
      first
      | rfl
      | (simp [DrawOp.covers, DrawOp.inBox]; omega)

/-- Witness for C7 at size 48 with the font measuring "CC" at 16 × 12. -/
theorem corner_pixels_background_witness :
    (48 ∈ sizes
      ∧ (∀ m : FontMetrics,
          (some ⟨16, 12⟩ : Option FontMetrics) = some m →
            m.textHeight + 48 / 8 / 2 < 48))
    ∧ (pixelAt (create_icon 48 ⟨66, 133, 244⟩ ⟨255, 255, 255⟩
          (some ⟨16, 12⟩)) 0 0 = (⟨66, 133, 244⟩ : RGB).toRGBA
      ∧ pixelAt (create_icon 48 ⟨66, 133, 244⟩ ⟨255, 255, 255⟩
          (some ⟨16, 12⟩)) (((48 : Nat) : Int) - 1) 0
            = (⟨66, 133, 244⟩ : RGB).toRGBA
      ∧ pixelAt (create_icon 48 ⟨66, 133, 244⟩ ⟨255, 255, 255⟩
          (some ⟨16, 12⟩)) 0 (((48 : Nat) : Int) - 1)
            = (⟨66, 133, 244⟩ : RGB).toRGBA
      ∧ pixelAt (create_icon 48 ⟨66, 133, 244⟩ ⟨255, 255, 255⟩
          (some ⟨16, 12⟩)) (((48 : Nat) : Int) - 1) (((48 : Nat) : Int) - 1)
            = (⟨66, 133, 244⟩ : RGB).toRGBA) :=
  ⟨⟨by decide, by rintro m hm; obtain rfl := Option.some.inj hm; decide⟩,
   corner_pixels_background 48 (by decide) ⟨66, 133, 244⟩ ⟨255, 255, 255⟩
     (some ⟨16, 12⟩) (by rintro m hm; obtain rfl := Option.some.inj hm; decide)⟩

end ChromeCopilot
